import Mathlib

/-
Shallow embedding of the OrthodonticAnalyzer pipeline of orthoscan-hub
(src/pages/OrthodonticAnalyzer.tsx): the usage logger, the report
sanitization sink, the analyze / clear / remove-image / export handlers and
the progress-bar interval callback, together with theorems checking the
specified invariants of the Analyzer Controller.
-/

/-- JavaScript values passed as the metadata argument of logUsageEvent. -/
inductive JsonValue where
  | null
  | bool (b : Bool)
  | num (n : Int)
  | str (s : String)
  | obj (fields : List (String × String))
deriving Repr, DecidableEq

/-- JavaScript truthiness of a JsonValue: null, false, 0 and the empty
string are falsy; every object is truthy. -/
def JsonValue.truthy : JsonValue → Bool
  | .null => false
  | .bool b => b
  | .num n => n != 0
  | .str s => s != ""
  | .obj _ => true

/-- Evaluation of the JavaScript expression "metadata || null" on an
optional JsonValue argument (none models an omitted argument). -/
def jsOrNull (m : Option JsonValue) : Option JsonValue :=
  match m with
  | none => none
  | some j => if j.truthy then some j else none

/-- Evaluation of the JavaScript expression "errorMessage || null" on an
optional string argument (none models an omitted argument). -/
def jsOrNullStr (s : Option String) : Option String :=
  match s with
  | none => none
  | some v => if v = "" then none else some v

/-- One row of the orthodontic_usage_logs table as built by logUsageEvent
(the server-assigned id and timestamp are not part of the client write). -/
structure UsageLogRow where
  event_type : String
  session_id : String
  metadata : Option JsonValue
  error_message : Option String
deriving Repr, DecidableEq

/-- The insert payload built by logUsageEvent from its arguments
(OrthodonticAnalyzer.tsx lines 29-34). -/
def usageInsertRow (sessionId eventType : String) (metadata : Option JsonValue)
    (errorMessage : Option String) : UsageLogRow :=
  { event_type := eventType
    session_id := sessionId
    metadata := jsOrNull metadata
    error_message := jsOrNullStr errorMessage }

/-- Failure modes of the try-block of logUsageEvent: getSupabaseClient may
throw (safeClient.ts line 21) or the insert may reject; otherwise the write
succeeds. -/
inductive LogWriteEnv where
  | clientFailure (msg : String)
  | insertFailure (msg : String)
  | ok
deriving Repr, DecidableEq

/-- Result of awaiting getSupabaseClient inside logUsageEvent. -/
def getSupabaseClientStep (env : LogWriteEnv) : Except String Unit :=
  match env with
  | .clientFailure m => Except.error m
  | _ => Except.ok ()

/-- Result of awaiting the supabase insert inside logUsageEvent. -/
def insertStep (env : LogWriteEnv) (row : UsageLogRow) : Except String UsageLogRow :=
  match env with
  | .insertFailure m => Except.error m
  | _ => Except.ok row

/-- The try-block of logUsageEvent: get the client, then insert the row
built from the arguments; either await may throw. -/
def logUsageEventBody (env : LogWriteEnv) (sessionId eventType : String)
    (metadata : Option JsonValue) (errorMessage : Option String) :
    Except String UsageLogRow := do
  let _ ← getSupabaseClientStep env
  insertStep env (usageInsertRow sessionId eventType metadata errorMessage)

/-- logUsageEvent as observed by its caller: the catch-block maps every
thrown error to a normally-resolved result (console.error only), so the
error channel of the returned promise is mapped to Except.ok none. -/
def logUsageEvent (env : LogWriteEnv) (sessionId eventType : String)
    (metadata : Option JsonValue) (errorMessage : Option String) :
    Except String (Option UsageLogRow) :=
  match logUsageEventBody env sessionId eventType metadata errorMessage with
  | Except.error _ => Except.ok none
  | Except.ok row => Except.ok (some row)

/-- A promise resolves when its result is on the ok channel. -/
def promiseResolves : Except String (Option UsageLogRow) → Bool
  | Except.ok _ => true
  | Except.error _ => false

/-- Drop the characters of a list up to and including the first occurrence
of the pattern; if the pattern never occurs the whole list is dropped. -/
def dropThroughPattern (pat : List Char) : List Char → List Char
  | [] => []
  | c :: cs =>
    if pat.isPrefixOf (c :: cs) then (c :: cs).drop pat.length
    else dropThroughPattern pat cs

/-- Remove every script element, its content included; the first argument
is recursion fuel bounded by the length of the input. -/
def stripScriptBlocks : Nat → List Char → List Char
  | 0, cs => cs
  | _ + 1, [] => []
  | fuel + 1, c :: cs =>
    if ("<script".toList).isPrefixOf (c :: cs) then
      stripScriptBlocks fuel (dropThroughPattern ("</script>".toList) (c :: cs))
    else
      c :: stripScriptBlocks fuel cs

/-- Modelled from the spec: src/utils/sanitizeHtml is imported by the
controller but its source file is not in the provided sources. Per spec
section 4.2 the sanitizer removes scripting constructs from an untrusted
HTML string and keeps allowed structural markup; it is modelled here as
removal of every script element together with its content. -/
def sanitizeHtml (s : String) : String :=
  String.mk (stripScriptBlocks s.length s.toList)

/-- The React state of the OrthodonticAnalyzer component, plus timerActive
recording whether progressIntervalRef currently holds a scheduled interval. -/
structure ControllerState where
  selectedImages : List String
  imageFiles : List String
  treatmentPlan : String
  isAnalyzing : Bool
  progress : Nat
  isPdfGenerating : Bool
  showPdfDialog : Bool
  pdfSuccess : Bool
  timerActive : Bool
deriving Repr, DecidableEq

/-- Initial component state: empty lists, empty report, all flags false. -/
def initialState : ControllerState :=
  { selectedImages := []
    imageFiles := []
    treatmentPlan := ""
    isAnalyzing := false
    progress := 0
    isPdfGenerating := false
    showPdfDialog := false
    pdfSuccess := false
    timerActive := false }

/-- The string handed to the DOM-injection sink when the treatment-plan
pane renders (OrthodonticAnalyzer.tsx lines 439-453): the placeholder is
shown for an empty report, otherwise dangerouslySetInnerHTML receives
sanitizeHtml applied to the stored report. -/
def renderedReportHtml (s : ControllerState) : Option String :=
  if s.treatmentPlan = "" then none
  else some (sanitizeHtml s.treatmentPlan)

/-- The index filter used by handleRemoveImage: keep every element whose
position differs from the removed index. -/
def removeAtIndex (idx : Nat) (l : List String) : List String :=
  (l.enum.filter (fun p => p.1 != idx)).map Prod.snd

/-- handleRemoveImage (lines 83-86): filter the removed index out of both
image lists; no other state field is written. -/
def handleRemoveImage (idx : Nat) (s : ControllerState) : ControllerState :=
  { s with
    selectedImages := removeAtIndex idx s.selectedImages
    imageFiles := removeAtIndex idx s.imageFiles }

/-- handleClearAll (lines 232-244): empty both image lists and the report,
reset progress to 0 and clear any scheduled interval. -/
def handleClearAll (s : ControllerState) : ControllerState :=
  { s with
    selectedImages := []
    imageFiles := []
    treatmentPlan := ""
    progress := 0
    timerActive := false }

/-- A value thrown inside the analyze try-block: either an Error instance
carrying a message, or any other thrown value. -/
inductive Thrown where
  | errorObj (msg : String)
  | other
deriving Repr, DecidableEq

/-- The message logged for a thrown value (line 158): the Error message
when the value is an Error instance, otherwise the fallback string. -/
def thrownMessage : Thrown → String
  | .errorObj m => m
  | .other => "Unknown error"

/-- One call made to logUsageEvent, recorded with its arguments. -/
structure LogCall where
  eventType : String
  metadata : Option JsonValue
  errorMessage : Option String
deriving Repr, DecidableEq

/-- Result of one invocation of handleAnalyze: the state after all its own
writes have applied, whether a remote analysis request was started, and the
logUsageEvent calls it made, in order. -/
structure AnalyzeOutcome where
  state : ControllerState
  invoked : Bool
  logs : List LogCall
deriving Repr, DecidableEq

/-- handleAnalyze (lines 88-168), with the combined result of the remote
invocation passed as a parameter. With no image it only shows a toast.
Otherwise it sets isAnalyzing, resets progress and the report, logs
analysis_start, replaces any scheduled interval with a fresh one and starts
the remote request. On success it sets progress to 100, stores the raw
analysis string, clears isAnalyzing and logs analysis_success; no
clearInterval is executed on this path. On a thrown failure it clears the
interval, resets progress to 0, logs analysis_error with the thrown
message and clears isAnalyzing. -/
def handleAnalyze (remote : Except Thrown String) (s : ControllerState) :
    AnalyzeOutcome :=
  if s.imageFiles.length = 0 then
    { state := s, invoked := false, logs := [] }
  else
    let s1 : ControllerState :=
      { s with isAnalyzing := true, progress := 0, treatmentPlan := "",
               timerActive := true }
    match remote with
    | Except.ok analysis =>
      { state := { s1 with progress := 100, treatmentPlan := analysis,
                           isAnalyzing := false }
        invoked := true
        logs := [{ eventType := "analysis_start", metadata := none, errorMessage := none },
                 { eventType := "analysis_success", metadata := none, errorMessage := none }] }
    | Except.error t =>
      { state := { s1 with timerActive := false, progress := 0,
                           isAnalyzing := false }
        invoked := true
        logs := [{ eventType := "analysis_start", metadata := none, errorMessage := none },
                 { eventType := "analysis_error", metadata := some JsonValue.null,
                   errorMessage := some (thrownMessage t) }] }

/-- Result of one invocation of handleGeneratePDF: the state after its own
writes, whether generatePDF was called, and the logUsageEvent calls made. -/
structure PdfOutcome where
  state : ControllerState
  generatePDFInvoked : Bool
  logs : List LogCall
deriving Repr, DecidableEq

/-- handleGeneratePDF (lines 170-230), with the result of the generatePDF
call passed as a parameter (Except.ok b for a returned boolean, Except.error
for a throw inside the try-block). With an empty report it only shows a
toast and returns before any PDF library call. -/
def handleGeneratePDF (pdfResult : Except Thrown Bool) (s : ControllerState) :
    PdfOutcome :=
  if s.treatmentPlan = "" then
    { state := s, generatePDFInvoked := false, logs := [] }
  else
    let s1 : ControllerState :=
      { s with isPdfGenerating := true, showPdfDialog := true, pdfSuccess := false }
    match pdfResult with
    | Except.ok true =>
      { state := { s1 with pdfSuccess := true, isPdfGenerating := false }
        generatePDFInvoked := true
        logs := [{ eventType := "pdf_export_start", metadata := none, errorMessage := none },
                 { eventType := "pdf_export_success", metadata := none, errorMessage := none }] }
    | Except.ok false =>
      { state := { s1 with showPdfDialog := false, isPdfGenerating := false }
        generatePDFInvoked := true
        logs := [{ eventType := "pdf_export_start", metadata := none, errorMessage := none },
                 { eventType := "pdf_export_error", metadata := some JsonValue.null,
                   errorMessage := some "PDF generation failed" }] }
    | Except.error t =>
      { state := { s1 with showPdfDialog := false, isPdfGenerating := false }
        generatePDFInvoked := true
        logs := [{ eventType := "pdf_export_start", metadata := none, errorMessage := none },
                 { eventType := "pdf_export_error", metadata := some JsonValue.null,
                   errorMessage := some (thrownMessage t) }] }

/-- The interval callback of handleAnalyze (lines 111-123) acting on the
internal counter i, represented in half-units so that the 0.5 step stays in
Nat: i2 stands for 2 times i. Below 60 (i2 below 120) the step is 2 (4
half-units), between 60 and 90 the step is 1, between 90 and 99 the step is
0.5; at and above 99 the counter is left unchanged (the interval clears
itself there). -/
def progressTick (i2 : Nat) : Nat :=
  if i2 < 120 then i2 + 4
  else if i2 < 180 then i2 + 2
  else if i2 < 198 then i2 + 1
  else i2

/-- The progress value a tick publishes from counter i2: JavaScript
Math.round of i2 / 2 (half away from zero) capped at 99 by Math.min. -/
def emittedProgress (i2 : Nat) : Nat :=
  min ((i2 + 1) / 2) 99

/-- The internal counter after n ticks of one analysis run (i starts at 0,
so i2 starts at 0). -/
def tickIter : Nat → Nat
  | 0 => 0
  | n + 1 => progressTick (tickIter n)

/-- A state with one uploaded panorex and nothing else, as after a valid
upload. -/
def imageLoadedState : ControllerState :=
  { initialState with
    selectedImages := ["data:image/png;base64,AAAA"]
    imageFiles := ["pano.png"] }

/-- A state in the middle of an analysis run: image present, isAnalyzing
set, interval scheduled, progress partway up. -/
def analyzingState : ControllerState :=
  { imageLoadedState with
    isAnalyzing := true
    timerActive := true
    progress := 40 }

/-- A state holding a rendered report. -/
def reportReadyState : ControllerState :=
  { imageLoadedState with
    treatmentPlan := "<p>ok</p>"
    progress := 100 }

theorem progressTick_le (i2 : Nat) : i2 ≤ progressTick i2 := by
  unfold progressTick
  split_ifs <;> omega

theorem emittedProgress_mono {a b : Nat} (h : a ≤ b) :
    emittedProgress a ≤ emittedProgress b := by
  unfold emittedProgress
  exact min_le_min (Nat.div_le_div_right (by omega)) (le_refl 99)

theorem imageFiles_length_ne {s : ControllerState} (h : s.imageFiles ≠ []) :
    ¬ s.imageFiles.length = 0 :=
  fun hl => h (List.length_eq_zero.mp hl)

/-- C1: whenever the treatment-plan pane inserts a non-empty report into
the document tree, the string handed to the DOM-injection sink is exactly
sanitizeHtml applied to the stored report, so an unsanitized report string
is never inserted. -/
theorem report_dom_sink_sanitized (s : ControllerState) (html : String)
    (h : renderedReportHtml s = some html) :
    html = sanitizeHtml s.treatmentPlan ∧ s.treatmentPlan ≠ "" := by
  unfold renderedReportHtml at h
  by_cases he : s.treatmentPlan = ""
  · simp [he] at h
  · simp only [if_neg he] at h
    exact ⟨(Option.some.inj h).symm, he⟩

theorem report_dom_sink_sanitized_witness :
    "<p>ok</p>" = sanitizeHtml reportReadyState.treatmentPlan ∧
      reportReadyState.treatmentPlan ≠ "" :=
  report_dom_sink_sanitized reportReadyState "<p>ok</p>" (by decide)

/-- C2: the code has no re-entrancy guard in handleAnalyze — evaluated at a
state in the analyzing phase (isAnalyzing true, one image present), the
handler still starts a remote analysis request, so a second invocation made
while one is in flight starts a second request, against the claim. The
only early return is the empty-image check. -/
theorem handleAnalyze_reentrant_starts_request :
    analyzingState.isAnalyzing = true ∧
    (handleAnalyze (Except.ok "<p>ok</p>") analyzingState).invoked = true := by
  decide

/-- C3: on the remote-success exit path handleAnalyze never clears the
progress interval — it leaves analyzing (isAnalyzing false) with the timer
still scheduled — while the failure path and handleClearAll do stop the
timer. This refutes the claim that the timer is stopped on every exit path
before the controller leaves analyzing. -/
theorem handleAnalyze_success_leaves_timer_active :
    ((handleAnalyze (Except.ok "<p>ok</p>") imageLoadedState).state.isAnalyzing = false ∧
     (handleAnalyze (Except.ok "<p>ok</p>") imageLoadedState).state.timerActive = true) ∧
    (handleAnalyze (Except.error (Thrown.errorObj "network failure"))
        imageLoadedState).state.timerActive = false ∧
    (handleClearAll analyzingState).timerActive = false := by
  decide

/-- C4: the progress timer publishes a non-decreasing sequence that never
exceeds 99 (in particular never 100), stepping by 2 percent while the
internal counter is below 60, by 1 percent between 60 and 90 and by 0.5
percent between 90 and 99 (the counter i2 is in half-percent units), and
only the orchestrator's success path forces progress to 100. -/
theorem progressTimer_curve :
    (∀ n : Nat, emittedProgress (tickIter n) ≤ 99) ∧
    (∀ n : Nat, emittedProgress (tickIter n) ≤ emittedProgress (tickIter (n + 1))) ∧
    (∀ i2 : Nat, i2 < 120 → progressTick i2 = i2 + 4) ∧
    (∀ i2 : Nat, 120 ≤ i2 → i2 < 180 → progressTick i2 = i2 + 2) ∧
    (∀ i2 : Nat, 180 ≤ i2 → i2 < 198 → progressTick i2 = i2 + 1) ∧
    (∀ i2 : Nat, emittedProgress i2 ≠ 100) ∧
    (∀ (s : ControllerState) (a : String), s.imageFiles ≠ [] →
      (handleAnalyze (Except.ok a) s).state.progress = 100) := by
  refine ⟨?_, ?_, ?_, ?_, ?_, ?_, ?_⟩
  · intro n
    exact min_le_right _ _
  · intro n
    exact emittedProgress_mono (progressTick_le (tickIter n))
  · intro i2 h
    unfold progressTick
    rw [if_pos h]
  · intro i2 h1 h2
    unfold progressTick
    split_ifs <;> omega
  · intro i2 h1 h2
    unfold progressTick
    split_ifs <;> omega
  · intro i2
    have hle : emittedProgress i2 ≤ 99 := min_le_right _ _
    omega
  · intro s a h
    unfold handleAnalyze
    rw [if_neg (imageFiles_length_ne h)]

theorem progressTimer_curve_witness :
    emittedProgress (tickIter 5) ≤ 99 ∧
    progressTick 10 = 10 + 4 ∧
    progressTick 150 = 150 + 2 ∧
    progressTick 190 = 190 + 1 ∧
    emittedProgress 240 ≠ 100 ∧
    (handleAnalyze (Except.ok "<p>ok</p>") imageLoadedState).state.progress = 100 :=
  ⟨progressTimer_curve.1 5,
   progressTimer_curve.2.2.1 10 (by decide),
   progressTimer_curve.2.2.2.1 150 (by decide) (by decide),
   progressTimer_curve.2.2.2.2.1 190 (by decide) (by decide),
   progressTimer_curve.2.2.2.2.2.1 240,
   progressTimer_curve.2.2.2.2.2.2 imageLoadedState "<p>ok</p>" (by decide)⟩

/-- C5: when the remote call fails with a thrown Error carrying message m,
handleAnalyze returns the controller to imageLoaded — isAnalyzing cleared
with both image lists untouched — resets progress to 0, clears the
interval, and makes exactly one analysis_error log call, carrying m. -/
theorem handleAnalyze_failure_path (s : ControllerState) (m : String)
    (h : s.imageFiles ≠ []) :
    (handleAnalyze (Except.error (Thrown.errorObj m)) s).state.isAnalyzing = false ∧
    (handleAnalyze (Except.error (Thrown.errorObj m)) s).state.selectedImages =
      s.selectedImages ∧
    (handleAnalyze (Except.error (Thrown.errorObj m)) s).state.imageFiles =
      s.imageFiles ∧
    (handleAnalyze (Except.error (Thrown.errorObj m)) s).state.progress = 0 ∧
    (handleAnalyze (Except.error (Thrown.errorObj m)) s).state.timerActive = false ∧
    (handleAnalyze (Except.error (Thrown.errorObj m)) s).logs.filter
        (fun c => c.eventType == "analysis_error") =
      [{ eventType := "analysis_error", metadata := some JsonValue.null,
         errorMessage := some m }] := by
  unfold handleAnalyze
  rw [if_neg (imageFiles_length_ne h)]
  exact ⟨rfl, rfl, rfl, rfl, rfl, rfl⟩

theorem handleAnalyze_failure_path_witness :
    (handleAnalyze (Except.error (Thrown.errorObj "boom")) imageLoadedState).state.isAnalyzing = false ∧
    (handleAnalyze (Except.error (Thrown.errorObj "boom")) imageLoadedState).state.selectedImages =
      imageLoadedState.selectedImages ∧
    (handleAnalyze (Except.error (Thrown.errorObj "boom")) imageLoadedState).state.imageFiles =
      imageLoadedState.imageFiles ∧
    (handleAnalyze (Except.error (Thrown.errorObj "boom")) imageLoadedState).state.progress = 0 ∧
    (handleAnalyze (Except.error (Thrown.errorObj "boom")) imageLoadedState).state.timerActive = false ∧
    (handleAnalyze (Except.error (Thrown.errorObj "boom")) imageLoadedState).logs.filter
        (fun c => c.eventType == "analysis_error") =
      [{ eventType := "analysis_error", metadata := some JsonValue.null,
         errorMessage := some "boom" }] :=
  handleAnalyze_failure_path imageLoadedState "boom" (by decide)

/-- C6 counterexample: on remote success the controller stores the raw
analysis string, not its sanitized form — at a payload consisting of a
script element the stored report differs from sanitizeHtml applied to it. -/
theorem handleAnalyze_stores_raw_report :
    (handleAnalyze (Except.ok "<script>alert(1)</script>") imageLoadedState).state.treatmentPlan ≠
      sanitizeHtml "<script>alert(1)</script>" := by
  decide

/-- C6 amended: on remote success with payload analysis a, the controller
leaves analyzing with progress forced to 100, stores a itself as the report
(sanitization is applied at render time, when the report is inserted into
the document tree, not at store time), and makes exactly one
analysis_success log call. -/
theorem handleAnalyze_success_path (s : ControllerState) (a : String)
    (h : s.imageFiles ≠ []) :
    (handleAnalyze (Except.ok a) s).state.isAnalyzing = false ∧
    (handleAnalyze (Except.ok a) s).state.progress = 100 ∧
    (handleAnalyze (Except.ok a) s).state.treatmentPlan = a ∧
    (a ≠ "" → renderedReportHtml (handleAnalyze (Except.ok a) s).state =
      some (sanitizeHtml a)) ∧
    (handleAnalyze (Except.ok a) s).logs.filter
        (fun c => c.eventType == "analysis_success") =
      [{ eventType := "analysis_success", metadata := none, errorMessage := none }] := by
  unfold handleAnalyze
  rw [if_neg (imageFiles_length_ne h)]
  refine ⟨rfl, rfl, rfl, ?_, rfl⟩
  intro ha
  unfold renderedReportHtml
  rw [if_neg ha]

theorem handleAnalyze_success_path_witness :
    (handleAnalyze (Except.ok "<p>ok</p>") imageLoadedState).state.isAnalyzing = false ∧
    (handleAnalyze (Except.ok "<p>ok</p>") imageLoadedState).state.progress = 100 ∧
    (handleAnalyze (Except.ok "<p>ok</p>") imageLoadedState).state.treatmentPlan = "<p>ok</p>" ∧
    ("<p>ok</p>" ≠ "" → renderedReportHtml (handleAnalyze (Except.ok "<p>ok</p>") imageLoadedState).state =
      some (sanitizeHtml "<p>ok</p>")) ∧
    (handleAnalyze (Except.ok "<p>ok</p>") imageLoadedState).logs.filter
        (fun c => c.eventType == "analysis_success") =
      [{ eventType := "analysis_success", metadata := none, errorMessage := none }] :=
  handleAnalyze_success_path imageLoadedState "<p>ok</p>" (by decide)

/-- C7: an export requested while the stored report is empty is rejected
before any PDF library call — generatePDF is not invoked, the controller
state is unchanged and no export event is logged. -/
theorem handleGeneratePDF_rejects_empty (r : Except Thrown Bool)
    (s : ControllerState) (h : s.treatmentPlan = "") :
    (handleGeneratePDF r s).generatePDFInvoked = false ∧
    (handleGeneratePDF r s).state = s ∧
    (handleGeneratePDF r s).logs = [] := by
  unfold handleGeneratePDF
  rw [if_pos h]
  exact ⟨rfl, rfl, rfl⟩

theorem handleGeneratePDF_rejects_empty_witness :
    (handleGeneratePDF (Except.ok true) imageLoadedState).generatePDFInvoked = false ∧
    (handleGeneratePDF (Except.ok true) imageLoadedState).state = imageLoadedState ∧
    (handleGeneratePDF (Except.ok true) imageLoadedState).logs = [] :=
  handleGeneratePDF_rejects_empty (Except.ok true) imageLoadedState (by decide)

/-- C8: for every event type, metadata, error message and every failure
mode of the log write — client construction failure or insert failure —
logUsageEvent resolves normally: the returned promise never rejects, and
both failure modes are swallowed into a resolved result with no row
written. -/
theorem logUsageEvent_never_rejects (env : LogWriteEnv)
    (sessionId eventType : String) (metadata : Option JsonValue)
    (errorMessage : Option String) :
    promiseResolves (logUsageEvent env sessionId eventType metadata errorMessage) = true ∧
    (∀ m : String, logUsageEvent (LogWriteEnv.clientFailure m) sessionId eventType
        metadata errorMessage = Except.ok none) ∧
    (∀ m : String, logUsageEvent (LogWriteEnv.insertFailure m) sessionId eventType
        metadata errorMessage = Except.ok none) := by
  refine ⟨?_, fun m => rfl, fun m => rfl⟩
  cases env <;> rfl

/-- C9: handleRemoveImage filters the given index out of the two image
lists and leaves every other piece of controller state unchanged — the
stored report, the progress value and all flags are retained — and on the
single-image list the filter at index 0 empties the list, so a session can
hold a report with no active image. -/
theorem handleRemoveImage_frame (idx : Nat) (s : ControllerState) :
    (handleRemoveImage idx s).selectedImages = removeAtIndex idx s.selectedImages ∧
    (handleRemoveImage idx s).imageFiles = removeAtIndex idx s.imageFiles ∧
    (handleRemoveImage idx s).treatmentPlan = s.treatmentPlan ∧
    (handleRemoveImage idx s).progress = s.progress ∧
    (handleRemoveImage idx s).isAnalyzing = s.isAnalyzing ∧
    (handleRemoveImage idx s).isPdfGenerating = s.isPdfGenerating ∧
    (handleRemoveImage idx s).showPdfDialog = s.showPdfDialog ∧
    (handleRemoveImage idx s).pdfSuccess = s.pdfSuccess ∧
    (handleRemoveImage idx s).timerActive = s.timerActive ∧
    (∀ x : String, removeAtIndex 0 [x] = []) :=
  ⟨rfl, rfl, rfl, rfl, rfl, rfl, rfl, rfl, rfl, fun _ => rfl⟩

/-- C10: the usage-log row coerces falsy arguments to null — an
empty-string error message and an omitted metadata argument are both
written as null, a logged error message is never the empty string, and
every falsy metadata value is coerced to null. -/
theorem usageInsertRow_coerces_falsy :
    (∀ sid et md, (usageInsertRow sid et md (some "")).error_message = none) ∧
    (∀ sid et em, (usageInsertRow sid et none em).metadata = none) ∧
    (∀ sid et md em, (usageInsertRow sid et md em).error_message ≠ some "") ∧
    (∀ sid et em (j : JsonValue), j.truthy = false →
      (usageInsertRow sid et (some j) em).metadata = none) := by
  refine ⟨fun sid et md => rfl, fun sid et em => rfl, ?_, ?_⟩
  · intro sid et md em
    show jsOrNullStr em ≠ some ""
    cases em with
    | none => exact fun hc => Option.noConfusion hc
    | some v =>
      by_cases hv : v = ""
      · simp [jsOrNullStr, hv]
      · simp only [jsOrNullStr, if_neg hv]
        exact fun hc => hv (Option.some.inj hc)
  · intro sid et em j h
    show jsOrNull (some j) = none
    simp [jsOrNull, h]

theorem usageInsertRow_coerces_falsy_witness :
    (usageInsertRow "session_1" "analysis_error" none (some "")).error_message = none ∧
    (usageInsertRow "session_1" "upload" (some JsonValue.null) none).metadata = none :=
  ⟨usageInsertRow_coerces_falsy.1 "session_1" "analysis_error" none,
   usageInsertRow_coerces_falsy.2.2.2 "session_1" "upload" none JsonValue.null (by decide)⟩
